import Mathlib

/-!
Shallow embedding of the anatomie-orchestrator coordination core.

Sources embedded:
- src/state.py        : OrchestratorState (counters, cached scores, persistence)
- src/coordinator.py  : LearningCycleCoordinator (learning cycle, generator batching)
- src/main.py         : the like-event endpoint
- orchestrator/coordinator.py : the earlier revision of the learning cycle
  (with train-status and score-error checks)

Modelling conventions:
- JSON payload fragments the coordinator merely passes through are modelled
  by the JVal type below.
- Python dict insertion (later assignment overwrites, insertion order kept)
  is modelled by dictInsert on association lists.
- Timestamps (datetime.now / isoformat round trip) are modelled as rational
  numbers of seconds; datetime.fromisoformat(t.isoformat()) = t, so the
  string representation is identified with the instant it denotes.
- Outbound HTTP calls are modelled by an environment: Except String r, where
  the error case covers network errors, timeouts and non-2xx responses
  (raise_for_status), carrying the exception message str(e).
- Structure ids are JSON strings per the optimizer contract; Python
  truthiness of an id (if struct_id:) is none-or-empty-string falsity.
- predicted_success_score is Option (Option Rat): the outer layer is key
  presence in the JSON object, the inner layer is null versus a number,
  matching dict.get with and without a default.
-/

namespace Anatomie

/-- JSON values, used for payload fields whose exact shape the coordinator
passes through untouched. -/
inductive JVal where
  | null
  | bool (b : Bool)
  | int (n : Int)
  | num (q : Rat)
  | str (s : String)
  | arr (elems : List JVal)
  | obj (fields : List (String × JVal))

/-- Python str() of a JSON value, used only to build exception messages;
rendering of containers is abbreviated, no claim depends on it. -/
def pyStrJ : JVal → String
  | .null => "None"
  | .bool true => "True"
  | .bool false => "False"
  | .int n => toString n
  | .num q => toString q
  | .str s => s
  | .arr _ => "[...]"
  | .obj _ => "dict"

/-- Python str() of an optional JSON value; str(None) is the string None. -/
def pyStrOptJ : Option JVal → String
  | none => pyStrJ .null
  | some v => pyStrJ v

/-- Python dict assignment d[k] = v on an insertion-ordered association
list: an existing key keeps its position and gets the new value, a new key
is appended. -/
def dictInsert (d : List (String × α)) (k : String) (v : α) : List (String × α) :=
  if d.any (fun p => p.1 == k) then
    d.map (fun p => if p.1 = k then (k, v) else p)
  else d ++ [(k, v)]

/-- One element of the score response structures list
(optimizer POST /score_structures). -/
structure Struct where
  structure_id : Option String
  predicted_success_score : Option (Option Rat)
deriving DecidableEq

/-- Python truthiness of a structure id (if struct_id:). -/
def idTruthy : Option String → Bool
  | none => false
  | some s => !s.isEmpty

/-- struct.get with the 0.5 default: an absent key yields 0.5, a present
key yields its value, which may be null. -/
def scoreGetD (s : Struct) : Option Rat :=
  match s.predicted_success_score with
  | none => some (1/2)
  | some v => v

/-- The structure_scores dict built by _update_generator: for each
structure whose structure_id is truthy, map str(id) to
struct.get(predicted_success_score, 0.5). -/
def buildStructureScores (structures : List Struct) : List (String × Option Rat) :=
  structures.foldl
    (fun d s =>
      match s.structure_id with
      | some sid => if sid.isEmpty then d else dictInsert d sid (scoreGetD s)
      | none => d)
    []

/-- The scores dict built by _cache_optimizer_scores: only structures with
a truthy structure_id and a score that is not None are kept. -/
def cacheScoresFrom (structures : List Struct) : List (String × Rat) :=
  structures.foldl
    (fun d s =>
      match s.structure_id, s.predicted_success_score with
      | some sid, some (some q) => if sid.isEmpty then d else dictInsert d sid q
      | _, _ => d)
    []

/-- In-memory OrchestratorState of src/state.py. Timestamps are rational
seconds (see the header comment). -/
structure OrchState where
  likes_since_last_retrain : Nat
  last_retrain_at : Option Rat
  last_like_at : Option Rat
  total_retrains : Nat
  total_likes_processed : Nat
  is_retraining : Bool
  last_error : Option String
  last_batch_at : Option Rat
  total_batches : Nat
  last_generation_at : Option Rat
  total_generations : Nat
  cached_structure_scores : List (String × Rat)
  scores_cached_at : Option Rat
deriving DecidableEq

/-- Fresh OrchestratorState constructed with no persisted state file
(all __init__ defaults). -/
def OrchState.init : OrchState where
  likes_since_last_retrain := 0
  last_retrain_at := none
  last_like_at := none
  total_retrains := 0
  total_likes_processed := 0
  is_retraining := false
  last_error := none
  last_batch_at := none
  total_batches := 0
  last_generation_at := none
  total_generations := 0
  cached_structure_scores := []
  scores_cached_at := none

/-- increment_likes: bump both like counters, stamp last_like_at, return
the new likes_since_last_retrain (persistence is write-through and is
modelled separately, see saveState below). -/
def OrchState.increment_likes (st : OrchState) (now : Rat) : Nat × OrchState :=
  let st :=
    { st with
      likes_since_last_retrain := st.likes_since_last_retrain + 1
      total_likes_processed := st.total_likes_processed + 1
      last_like_at := some now }
  (st.likes_since_last_retrain, st)

/-- reset_likes: zero the like counter, stamp last_retrain_at, bump
total_retrains. -/
def OrchState.reset_likes (st : OrchState) (now : Rat) : OrchState :=
  { st with
    likes_since_last_retrain := 0
    last_retrain_at := some now
    total_retrains := st.total_retrains + 1 }

/-- set_retraining: transient flag, not persisted. -/
def OrchState.set_retraining (st : OrchState) (b : Bool) : OrchState :=
  { st with is_retraining := b }

/-- set_error: transient last workflow error, not persisted. -/
def OrchState.set_error (st : OrchState) (e : Option String) : OrchState :=
  { st with last_error := e }

/-- cache_scores: replace the cached score dict and stamp
scores_cached_at. -/
def OrchState.cache_scores (st : OrchState) (scores : List (String × Rat)) (now : Rat) :
    OrchState :=
  { st with cached_structure_scores := scores, scores_cached_at := some now }

/-- has_fresh_scores: true iff a cache timestamp exists and the elapsed
seconds are strictly below max_age_hours * 3600. -/
def OrchState.has_fresh_scores (st : OrchState) (now : Rat) (max_age_hours : Int) : Bool :=
  match st.scores_cached_at with
  | none => false
  | some t => decide (now - t < (max_age_hours : Rat) * 3600)

/-- Process configuration (src/config.py); only the fields the embedded
code reads. -/
structure Config where
  like_threshold : Nat
  exploration_rate : Rat

/-- Optimizer POST /train response payload: only the status and error keys
are ever inspected (by the orchestrator/ revision). -/
structure TrainResponse where
  status : Option JVal
  error : Option JVal

/-- Optimizer POST /score_structures response payload. The structures and
global_preference_vector fields are read with .get and empty defaults, so
an absent key is identified with the empty list. The error field records
key presence (checked by the orchestrator/ revision). -/
structure ScoreResponse where
  structures : List Struct
  global_preference_vector : List (String × JVal)
  error : Option JVal

/-- Optimizer GET /structure_prompt_insights response payload; insights is
read with .get and an empty default. -/
structure InsightsResponse where
  status : Option String
  insights : List (String × JVal)

/-- Payload POSTed to the generator /update_preferences endpoint by
_update_generator. -/
structure UpdateGeneratorPayload where
  global_preference_vector : List (String × JVal)
  exploration_rate : Rat
  structure_scores : List (String × Option Rat)
  structure_prompt_insights : List (String × JVal)

/-- _get_structure_insights: any failure of the GET (network error,
timeout, non-2xx) is caught and replaced by the not_available value. -/
def getStructureInsights (call : Except String InsightsResponse) : InsightsResponse :=
  match call with
  | .ok r => r
  | .error _ => { status := some "not_available", insights := [] }

/-- The payload construction of _update_generator (identical in both
revisions of the coordinator). -/
def updateGeneratorPayload (exploration_rate : Rat) (score : ScoreResponse)
    (ins : InsightsResponse) : UpdateGeneratorPayload where
  global_preference_vector := score.global_preference_vector
  exploration_rate := exploration_rate
  structure_scores := buildStructureScores score.structures
  structure_prompt_insights := ins.insights

/-- Result of _update_airtable_scores: skipped without an API key,
otherwise completed with the count of 200-status patches. -/
inductive AirtableUpdateResult where
  | skipped (reason : String)
  | completed (updated : Nat) (total : Nat)

/-- A structure is patched only when its id is truthy and its score is not
None. -/
def airtableEligible (s : Struct) : Bool :=
  idTruthy s.structure_id &&
    (match s.predicted_success_score with
     | some (some _) => true
     | _ => false)

/-- _update_airtable_scores: per-record PATCH outcomes come from the
environment (patch_ok, indexed by position); failed or raising patches are
swallowed and simply not counted. -/
def updateAirtableScores (has_key : Bool) (patch_ok : Nat → Bool)
    (structures : List Struct) : AirtableUpdateResult :=
  if !has_key then .skipped "No API key"
  else
    .completed
      (structures.enum.foldl
        (fun u p => if airtableEligible p.2 && patch_ok p.1 then u + 1 else u) 0)
      structures.length

/-- Environment of one learning-cycle execution: the outcome of each
outbound call, the Airtable credential presence, and the wall clock. -/
structure CycleEnv where
  now : Rat
  train : Except String TrainResponse
  score : Except String ScoreResponse
  insights : Except String InsightsResponse
  generator_update : UpdateGeneratorPayload → Except String JVal
  airtable_has_key : Bool
  airtable_patch_ok : Nat → Bool

/-- The results dict returned by run_learning_cycle. A none field models
an absent or null entry (the initial dict maps every step to None; the
error key is added only on failure in the src/ revision and is None on
success in the orchestrator/ revision — both are the none case here). -/
structure CycleResults where
  train : Option TrainResponse
  score : Option ScoreResponse
  insights : Option InsightsResponse
  generator_update : Option JVal
  airtable_update : Option AirtableUpdateResult
  success : Bool
  error : Option String

/-- The results dict at the point an aborting step raised with message e:
later steps keep their initial None values, success stays false. -/
def errCycleResults (tr : Option TrainResponse) (sc : Option ScoreResponse)
    (ins : Option InsightsResponse) (e : String) : CycleResults where
  train := tr
  score := sc
  insights := ins
  generator_update := none
  airtable_update := none
  success := false
  error := some e

/-- run_learning_cycle of src/coordinator.py: train, score, insights
(best-effort), update generator, update Airtable, cache scores, reset the
like counter; any raising step short-circuits into the except branch, and
the finally branch always clears is_retraining. Note this revision checks
no status field of the train payload. -/
def runLearningCycle (cfg : Config) (env : CycleEnv) (st : OrchState) :
    CycleResults × OrchState :=
  let st0 := (st.set_retraining true).set_error none
  let (res, st1) :=
    match env.train with
    | .error e => (errCycleResults none none none e, st0.set_error (some e))
    | .ok tr =>
      match env.score with
      | .error e => (errCycleResults (some tr) none none e, st0.set_error (some e))
      | .ok sc =>
        let ins := getStructureInsights env.insights
        match env.generator_update (updateGeneratorPayload cfg.exploration_rate sc ins) with
        | .error e =>
          (errCycleResults (some tr) (some sc) (some ins) e, st0.set_error (some e))
        | .ok gu =>
          let au := updateAirtableScores env.airtable_has_key env.airtable_patch_ok
            sc.structures
          let st2 := (st0.cache_scores (cacheScoresFrom sc.structures) env.now).reset_likes
            env.now
          ({ train := some tr, score := some sc, insights := some ins,
             generator_update := some gu, airtable_update := some au,
             success := true, error := none }, st2)
  (res, st1.set_retraining false)

/-- The orchestrator/ revision check: results of train .get(status) == the
string error. -/
def trainStatusIsError (tr : TrainResponse) : Bool :=
  match tr.status with
  | some (.str s) => s == "error"
  | _ => false

/-- run_learning_cycle of orchestrator/coordinator.py: like the src/
revision but with an explicit error-status check after train (raising
Training failed) and an error-key check after score (raising Scoring
failed); this revision has no score cache. -/
def runLearningCycleV1 (cfg : Config) (env : CycleEnv) (st : OrchState) :
    CycleResults × OrchState :=
  let st0 := (st.set_retraining true).set_error none
  let (res, st1) :=
    match env.train with
    | .error e => (errCycleResults none none none e, st0.set_error (some e))
    | .ok tr =>
      if trainStatusIsError tr then
        let e := "Training failed: " ++ pyStrOptJ tr.error
        (errCycleResults (some tr) none none e, st0.set_error (some e))
      else
        match env.score with
        | .error e => (errCycleResults (some tr) none none e, st0.set_error (some e))
        | .ok sc =>
          if sc.error.isSome then
            let e := "Scoring failed: " ++ pyStrOptJ sc.error
            (errCycleResults (some tr) (some sc) none e, st0.set_error (some e))
          else
            let ins := getStructureInsights env.insights
            match env.generator_update (updateGeneratorPayload cfg.exploration_rate sc ins) with
            | .error e =>
              (errCycleResults (some tr) (some sc) (some ins) e, st0.set_error (some e))
            | .ok gu =>
              let au := updateAirtableScores env.airtable_has_key env.airtable_patch_ok
                sc.structures
              ({ train := some tr, score := some sc, insights := some ins,
                 generator_update := some gu, airtable_update := some au,
                 success := true, error := none }, st0.reset_likes env.now)
  (res, st1.set_retraining false)

/-- Response of the like-event endpoint of src/main.py. -/
structure LikeEventResponse where
  status : String
  likes_since_last_retrain : Nat
  threshold : Nat
  threshold_reached : Bool
  retrain_triggered : Bool
  message : String
deriving DecidableEq

/-- handle_like_event of src/main.py: a busy flag yields the queued
response without incrementing; otherwise the counter is incremented and,
at or above the threshold, a learning cycle is dispatched
(retrain_triggered = true). -/
def handle_like_event (cfg : Config) (st : OrchState) (now : Rat) :
    LikeEventResponse × OrchState :=
  if st.is_retraining then
    ({ status := "queued", likes_since_last_retrain := st.likes_since_last_retrain,
       threshold := cfg.like_threshold, threshold_reached := false,
       retrain_triggered := false, message := "Retrain in progress" }, st)
  else
    let (new_count, st1) := st.increment_likes now
    if cfg.like_threshold ≤ new_count then
      ({ status := "threshold_reached", likes_since_last_retrain := new_count,
         threshold := cfg.like_threshold, threshold_reached := true,
         retrain_triggered := true,
         message := "Threshold reached. Learning cycle triggered." }, st1)
    else
      ({ status := "recorded", likes_since_last_retrain := new_count,
         threshold := cfg.like_threshold, threshold_reached := false,
         retrain_triggered := false,
         message := "Like recorded. " ++ toString (cfg.like_threshold - new_count)
           ++ " until next learning cycle." }, st1)

/-- A strictly serialized sequence of like events: each event (with its
wall-clock instant and the environment of the learning cycle it may
trigger) completes, including the triggered background cycle, before the
next event is processed. Returns the number of learning-cycle dispatches
and the final state. -/
def runLikeEventsSerialized (cfg : Config) (events : List (Rat × CycleEnv))
    (st : OrchState) : Nat × OrchState :=
  match events with
  | [] => (0, st)
  | (now, env) :: rest =>
    let (resp, st1) := handle_like_event cfg st now
    let st2 := if resp.retrain_triggered then (runLearningCycle cfg env st1).2 else st1
    let (k, st3) := runLikeEventsSerialized cfg rest st2
    ((if resp.retrain_triggered then 1 else 0) + k, st3)

/-- Observable events of _call_generator: an issued sub-request with its
num_prompts, and an asyncio.sleep with its duration. -/
inductive GenEvent where
  | request (num_prompts : Nat)
  | sleep (seconds : Nat)
deriving DecidableEq

/-- The sub-request loop of _call_generator. The environment maps the
1-based batch number to the outcome of that POST /generate-prompts call
(the prompts list of its JSON body). batch_size is the keyword parameter
of _call_generator; it defaults to 10 and no caller overrides it, so it is
fixed to 10 here. A raising sub-request propagates out immediately. -/
def callGeneratorAux (env : Nat → Except String (List JVal)) (remaining : Int)
    (batch_num : Nat) (acc : List JVal) (trace : List GenEvent) :
    Except String (List JVal) × List GenEvent :=
  if remaining ≤ 0 then (.ok acc, trace)
  else
    let current := min remaining 10
    match env (batch_num + 1) with
    | .error e => (.error e, trace ++ [.request current.toNat])
    | .ok prompts =>
      let remaining2 := remaining - current
      if remaining2 > 0 then
        callGeneratorAux env remaining2 (batch_num + 1) (acc ++ prompts)
          (trace ++ [.request current.toNat, .sleep 2])
      else (.ok (acc ++ prompts), trace ++ [.request current.toNat])
termination_by remaining.toNat
decreasing_by omega

/-- _call_generator of src/coordinator.py: returns the prompts key of the
result (the concatenation of the sub-responses) together with the trace of
issued sub-requests and sleep calls. -/
def call_generator (env : Nat → Except String (List JVal)) (num_prompts : Int) :
    Except String (List JVal) × List GenEvent :=
  callGeneratorAux env num_prompts 0 [] []

/-- The sequence of sub-request sizes the loop issues for a given
remaining count: min(remaining, 10) per iteration. -/
def batchSizes (remaining : Int) : List Nat :=
  if remaining ≤ 0 then []
  else (min remaining 10).toNat :: batchSizes (remaining - min remaining 10)
termination_by remaining.toNat
decreasing_by omega

/-- The trace of an all-successful batched call: the sub-requests in
order, a 2-second sleep between consecutive ones and none after the
last. -/
def seqTrace : List Nat → List GenEvent
  | [] => []
  | [n] => [.request n]
  | n :: m :: rest => .request n :: .sleep 2 :: seqTrace (m :: rest)

/-- The record persisted by _save_state of src/state.py, with the field
types the class declares (int counters, Optional[str] ISO timestamps,
Optional[dict] summaries, Dict[str, float] scores). -/
structure PersistedFields where
  likes_since_last_retrain : Int
  last_retrain_at : Option String
  last_like_at : Option String
  total_retrains : Int
  total_likes_processed : Int
  last_batch_at : Option String
  total_batches : Int
  last_batch_result : Option (List (String × JVal))
  last_generation_at : Option String
  total_generations : Int
  last_generation_result : Option (List (String × JVal))
  cached_structure_scores : List (String × Rat)
  scores_cached_at : Option String

/-- json.dump of an optional string (None becomes null). -/
def encOptStr : Option String → JVal
  | none => .null
  | some s => .str s

/-- json.dump of an optional dict (None becomes null). -/
def encOptObj : Option (List (String × JVal)) → JVal
  | none => .null
  | some o => .obj o

/-- json.dump of the scores dict. -/
def encScores (scores : List (String × Rat)) : JVal :=
  .obj (scores.map fun p => (p.1, .num p.2))

/-- _save_state: the JSON object written to the state file, all persisted
fields, in source order. The textual json.dump / json.load round trip is
the identity on these values, so the file is modelled by the object
itself. -/
def saveState (p : PersistedFields) : List (String × JVal) :=
  [("likes_since_last_retrain", .int p.likes_since_last_retrain),
   ("last_retrain_at", encOptStr p.last_retrain_at),
   ("last_like_at", encOptStr p.last_like_at),
   ("total_retrains", .int p.total_retrains),
   ("total_likes_processed", .int p.total_likes_processed),
   ("last_batch_at", encOptStr p.last_batch_at),
   ("total_batches", .int p.total_batches),
   ("last_batch_result", encOptObj p.last_batch_result),
   ("last_generation_at", encOptStr p.last_generation_at),
   ("total_generations", .int p.total_generations),
   ("last_generation_result", encOptObj p.last_generation_result),
   ("cached_structure_scores", encScores p.cached_structure_scores),
   ("scores_cached_at", encOptStr p.scores_cached_at)]

/-- Reading an int field with data.get and an int default; a value of a
different shape than the declared field type falls back to the
default. -/
def decInt (v : Option JVal) (d : Int) : Int :=
  match v with
  | some (.int n) => n
  | _ => d

/-- Reading an Optional[str] field with data.get (default None). -/
def decOptStr (v : Option JVal) : Option String :=
  match v with
  | some (.str s) => some s
  | _ => none

/-- Reading an Optional[dict] field with data.get (default None). -/
def decOptObj (v : Option JVal) : Option (List (String × JVal)) :=
  match v with
  | some (.obj o) => some o
  | _ => none

/-- Decoding the entries of a Dict[str, float] value; any non-number entry
makes the whole dict ill-typed. -/
def decScoreEntries : List (String × JVal) → Option (List (String × Rat))
  | [] => some []
  | (k, .num q) :: rest => (decScoreEntries rest).map (fun r => (k, q) :: r)
  | _ => none

/-- Reading the cached_structure_scores field with data.get (default the
empty dict). -/
def decScores (v : Option JVal) : List (String × Rat) :=
  match v with
  | some (.obj o) => (decScoreEntries o).getD []
  | _ => []

/-- _load_state: every persisted field is read from the file object with
data.get and its field default. -/
def loadState (file : List (String × JVal)) : PersistedFields where
  likes_since_last_retrain := decInt (List.lookup "likes_since_last_retrain" file) 0
  last_retrain_at := decOptStr (List.lookup "last_retrain_at" file)
  last_like_at := decOptStr (List.lookup "last_like_at" file)
  total_retrains := decInt (List.lookup "total_retrains" file) 0
  total_likes_processed := decInt (List.lookup "total_likes_processed" file) 0
  last_batch_at := decOptStr (List.lookup "last_batch_at" file)
  total_batches := decInt (List.lookup "total_batches" file) 0
  last_batch_result := decOptObj (List.lookup "last_batch_result" file)
  last_generation_at := decOptStr (List.lookup "last_generation_at" file)
  total_generations := decInt (List.lookup "total_generations" file) 0
  last_generation_result := decOptObj (List.lookup "last_generation_result" file)
  cached_structure_scores := decScores (List.lookup "cached_structure_scores" file)
  scores_cached_at := decOptStr (List.lookup "scores_cached_at" file)

/-- The per-structure entry of the _update_generator dict loop, as a
partial map: none when the structure is skipped. -/
def buildEntry (s : Struct) : Option (String × Option Rat) :=
  match s.structure_id with
  | some sid => if sid.isEmpty then none else some (sid, scoreGetD s)
  | none => none

/-- The per-structure entry of the _cache_optimizer_scores dict loop. -/
def cacheEntry (s : Struct) : Option (String × Rat) :=
  match s.structure_id, s.predicted_success_score with
  | some sid, some (some q) => if sid.isEmpty then none else some (sid, q)
  | _, _ => none

/-- Generic form of the two dict-building loops: insert the entry of each
structure in list order. -/
def foldInsert (f : Struct → Option (String × α)) (l : List Struct)
    (d : List (String × α)) : List (String × α) :=
  l.foldl
    (fun d s =>
      match f s with
      | some kv => dictInsert d kv.1 kv.2
      | none => d)
    d

/-- The ids contributed by a structure list, in loop order. -/
def entryKeys (f : Struct → Option (String × α)) (l : List Struct) : List String :=
  l.filterMap (fun s => (f s).map Prod.fst)

/-- An always-successful generator environment built from the per-batch
response bodies. -/
def okEnvOf (resp : Nat → List JVal) : Nat → Except String (List JVal) :=
  fun i => .ok (resp i)

/-- The configuration defaults of src/config.py (like_threshold 25,
exploration_rate 0.2). -/
def cfgDefault : Config where
  like_threshold := 25
  exploration_rate := 1/5

/-- Aborting steps of the src/ revision all succeed: train, score and the
generator update (at the payload actually sent) return ok. -/
def abortingOk (cfg : Config) (env : CycleEnv) : Prop :=
  ∃ tr sc gu,
    env.train = .ok tr ∧ env.score = .ok sc ∧
    env.generator_update
      (updateGeneratorPayload cfg.exploration_rate sc (getStructureInsights env.insights))
      = .ok gu

/-- Aborting steps of the orchestrator/ revision all succeed: additionally
the train payload has no error status and the score payload has no error
key. -/
def abortingOkV1 (cfg : Config) (env : CycleEnv) : Prop :=
  ∃ tr sc gu,
    env.train = .ok tr ∧ trainStatusIsError tr = false ∧
    env.score = .ok sc ∧ sc.error = none ∧
    env.generator_update
      (updateGeneratorPayload cfg.exploration_rate sc (getStructureInsights env.insights))
      = .ok gu

/-- Every failure the environment can produce carries a non-empty message
(httpx exception strings are never empty). -/
def envErrorsNonempty (env : CycleEnv) : Prop :=
  (∀ e, env.train = .error e → e ≠ "") ∧
  (∀ e, env.score = .error e → e ≠ "") ∧
  (∀ p e, env.generator_update p = .error e → e ≠ "")

/-- The two terminal states of a learning-cycle result: success with no
error message, or failure with a non-empty one. -/
def resultWellFormed (r : CycleResults) : Prop :=
  (r.success = true ∧ r.error = none) ∨
  (r.success = false ∧ ∃ e, r.error = some e ∧ e ≠ "")

/-- A cycle environment in which every outbound call succeeds. -/
def envAllOk : CycleEnv where
  now := 0
  train := .ok { status := some (.str "ok"), error := none }
  score := .ok { structures := [], global_preference_vector := [], error := none }
  insights := .ok { status := none, insights := [] }
  generator_update := fun _ => .ok .null
  airtable_has_key := false
  airtable_patch_ok := fun _ => true

/-- envAllOk with a failing insights fetch. -/
def envInsightsFail : CycleEnv :=
  { envAllOk with insights := .error "connection refused" }

/-- envAllOk with a 2xx train response whose payload signals an error. -/
def envTrainStatusError : CycleEnv :=
  { envAllOk with train := .ok { status := some (.str "error"), error := some (.str "oom") } }

/-! Theorems. -/

lemma decScoreEntries_enc (l : List (String × Rat)) :
    decScoreEntries (l.map fun q => (q.1, .num q.2)) = some l := by
  induction l with
  | nil => rfl
  | cons q rest ih => simp [decScoreEntries, ih]

lemma decOptStr_encOptStr (x : Option String) : decOptStr (some (encOptStr x)) = x := by
  cases x <;> rfl

lemma decOptObj_encOptObj (x : Option (List (String × JVal))) :
    decOptObj (some (encOptObj x)) = x := by
  cases x <;> rfl

lemma decScores_encScores (l : List (String × Rat)) :
    decScores (some (encScores l)) = l := by
  simp [decScores, encScores, decScoreEntries_enc]

/-- C7: has_fresh_scores is false whenever no cache timestamp is set, true
immediately after cache_scores, true iff a timestamp exists and the
elapsed time is strictly below max_age_hours hours, and false once 24 or
more hours have elapsed; a freshly constructed state has no timestamp. -/
theorem has_fresh_scores_spec (st : OrchState) (now t : Rat)
    (scores : List (String × Rat)) (h : Int) :
    (st.scores_cached_at = none → st.has_fresh_scores now 24 = false) ∧
    ((st.cache_scores scores now).has_fresh_scores now 24 = true) ∧
    (st.has_fresh_scores now h = true ↔
      ∃ u, st.scores_cached_at = some u ∧ now - u < (h : Rat) * 3600) ∧
    (st.scores_cached_at = some t → (24 : Rat) * 3600 ≤ now - t →
      st.has_fresh_scores now 24 = false) ∧
    (OrchState.init.has_fresh_scores now 24 = false) := by
  refine ⟨?_, ?_, ?_, ?_, ?_⟩
  · intro h0
    simp [OrchState.has_fresh_scores, h0]
  · simp [OrchState.has_fresh_scores, OrchState.cache_scores]
  · cases hc : st.scores_cached_at with
    | none => simp [OrchState.has_fresh_scores, hc]
    | some u => simp [OrchState.has_fresh_scores, hc]
  · intro hc hage
    simp [OrchState.has_fresh_scores, hc]
    linarith
  · simp [OrchState.has_fresh_scores, OrchState.init]

/-- Witness for C7 at concrete instants: a fresh state is stale, a state
cached at instant 0 is fresh at 0 and stale at 86400 seconds. -/
theorem has_fresh_scores_witness :
    (OrchState.init.has_fresh_scores 0 24 = false) ∧
    ((OrchState.init.cache_scores [] 0).has_fresh_scores 86400 24 = false) ∧
    ((OrchState.init.cache_scores [] 0).has_fresh_scores 0 24 = true) :=
  ⟨(has_fresh_scores_spec OrchState.init 0 0 [] 24).1 rfl,
   (has_fresh_scores_spec (OrchState.init.cache_scores [] 0) 86400 0 [] 24).2.2.2.1 rfl
     (by norm_num),
   (has_fresh_scores_spec OrchState.init 0 0 [] 24).2.1⟩

/-- C8: saving any valid persisted-field record and loading it back
restores every persisted field exactly. -/
theorem save_load_roundtrip (p : PersistedFields) : loadState (saveState p) = p := by
  cases p
  simp [loadState, saveState, List.lookup, decInt,
    decOptStr_encOptStr, decOptObj_encOptObj, decScores_encScores]

/-- C3 counterexample: in the src/ revision of run_learning_cycle a 2xx
train response with payload status error and error text oom does not
abort: the cycle proceeds to the scoring step and finishes with
success true and no error entry. -/
theorem train_status_error_not_checked :
    (runLearningCycle cfgDefault envTrainStatusError OrchState.init).1.success = true ∧
    ((runLearningCycle cfgDefault envTrainStatusError OrchState.init).1.score).isSome = true ∧
    (runLearningCycle cfgDefault envTrainStatusError OrchState.init).1.error = none :=
  ⟨rfl, rfl, rfl⟩

/-- C3 amended: in the orchestrator/ revision of run_learning_cycle, a 2xx
train response whose payload has an error status aborts before the scoring
step with success false, an error message Training failed followed by the
payload error text, and is_retraining false afterwards. -/
theorem train_status_error_aborts_v1 (cfg : Config) (st : OrchState) (env : CycleEnv)
    (tr : TrainResponse) (m : String)
    (htr : env.train = .ok tr) (hstat : tr.status = some (.str "error"))
    (herr : tr.error = some (.str m)) :
    (runLearningCycleV1 cfg env st).1.success = false ∧
    (runLearningCycleV1 cfg env st).1.score = none ∧
    (runLearningCycleV1 cfg env st).1.error = some ("Training failed: " ++ m) ∧
    (runLearningCycleV1 cfg env st).2.is_retraining = false := by
  have hs : trainStatusIsError tr = true := by simp [trainStatusIsError, hstat]
  simp [runLearningCycleV1, htr, hs, herr, pyStrOptJ, pyStrJ, errCycleResults,
    OrchState.set_retraining, OrchState.set_error]

/-- Witness for C3 at the oom scenario of the spec. -/
theorem train_status_error_aborts_v1_witness :
    (runLearningCycleV1 cfgDefault envTrainStatusError OrchState.init).1.success = false ∧
    (runLearningCycleV1 cfgDefault envTrainStatusError OrchState.init).1.score = none ∧
    (runLearningCycleV1 cfgDefault envTrainStatusError OrchState.init).1.error =
      some ("Training failed: " ++ "oom") ∧
    (runLearningCycleV1 cfgDefault envTrainStatusError OrchState.init).2.is_retraining = false :=
  train_status_error_aborts_v1 cfgDefault OrchState.init envTrainStatusError
    { status := some (.str "error"), error := some (.str "oom") } "oom" rfl rfl rfl

/-- C4: a failing insights fetch is replaced by the not_available value
and does not abort the learning cycle: when the aborting steps succeed the
cycle finishes with success true and the substituted insights. -/
theorem insights_best_effort (cfg : Config) (st : OrchState) (env : CycleEnv) (e : String)
    (tr : TrainResponse) (sc : ScoreResponse) (gu : JVal)
    (hins : env.insights = .error e)
    (htr : env.train = .ok tr) (hsc : env.score = .ok sc)
    (hgu : env.generator_update
      (updateGeneratorPayload cfg.exploration_rate sc (getStructureInsights env.insights))
      = .ok gu) :
    getStructureInsights env.insights = { status := some "not_available", insights := [] } ∧
    (runLearningCycle cfg env st).1.insights =
      some { status := some "not_available", insights := [] } ∧
    (runLearningCycle cfg env st).1.success = true := by
  simp only [runLearningCycle, htr, hsc, hgu]
  simp [hins, getStructureInsights]

/-- Witness for C4: a concrete network failure of the insights fetch with
every other call succeeding. -/
theorem insights_best_effort_witness :
    (runLearningCycle cfgDefault envInsightsFail OrchState.init).1.insights =
      some { status := some "not_available", insights := [] } ∧
    (runLearningCycle cfgDefault envInsightsFail OrchState.init).1.success = true :=
  ⟨(insights_best_effort cfgDefault OrchState.init envInsightsFail "connection refused"
      { status := some (.str "ok"), error := none }
      { structures := [], global_preference_vector := [], error := none }
      .null rfl rfl rfl rfl).2.1,
   (insights_best_effort cfgDefault OrchState.init envInsightsFail "connection refused"
      { status := some (.str "ok"), error := none }
      { structures := [], global_preference_vector := [], error := none }
      .null rfl rfl rfl rfl).2.2⟩

lemma append_left_ne_empty (s t : String) (hs : s ≠ "") : s ++ t ≠ "" := by
  intro hEq
  have hlen := congrArg String.length hEq
  simp [String.length_append] at hlen
  apply hs
  have hd : s.data = [] := List.length_eq_zero.mp hlen.1
  cases s
  simp_all

lemma isEmpty_false_iff (s : String) : s.isEmpty = false ↔ s ≠ "" := by
  rw [Bool.eq_false_iff, ne_eq, String.isEmpty_iff]

lemma lookup_cons (a k : String) (v : α) (d : List (String × α)) :
    List.lookup a ((k, v) :: d) = if a = k then some v else List.lookup a d := by
  by_cases h : a = k
  · subst h; simp [List.lookup]
  · have hb : (a == k) = false := beq_eq_false_iff_ne.mpr h
    simp [List.lookup, hb, h]

lemma lookup_overwrite_ne (d : List (String × α)) (k a : String) (v : α) (hak : a ≠ k) :
    List.lookup a (d.map fun p => if p.1 = k then (k, v) else p) = List.lookup a d := by
  induction d with
  | nil => rfl
  | cons p rest ih =>
    rw [List.map_cons]
    by_cases hpk : p.1 = k
    · rw [if_pos hpk, lookup_cons,
        show p = (p.1, p.2) from rfl, lookup_cons,
        if_neg hak, if_neg (fun hap => hak (hap.trans hpk)), ih]
    · rw [if_neg hpk, show p = (p.1, p.2) from rfl, lookup_cons, lookup_cons]
      by_cases hap : a = p.1
      · rw [if_pos hap, if_pos hap]
      · rw [if_neg hap, if_neg hap, ih]

lemma lookup_overwrite_mem (d : List (String × α)) (k : String) (v : α)
    (hmem : d.any (fun p => p.1 == k) = true) :
    List.lookup k (d.map fun p => if p.1 = k then (k, v) else p) = some v := by
  induction d with
  | nil => simp at hmem
  | cons p rest ih =>
    rw [List.map_cons]
    by_cases hpk : p.1 = k
    · rw [if_pos hpk, lookup_cons, if_pos rfl]
    · have hb : (p.1 == k) = false := beq_eq_false_iff_ne.mpr hpk
      have hmem2 : rest.any (fun p => p.1 == k) = true := by
        simp only [List.any_cons, hb, Bool.false_or] at hmem
        exact hmem
      rw [if_neg hpk, show p = (p.1, p.2) from rfl, lookup_cons,
        if_neg (fun hEq => hpk hEq.symm)]
      exact ih hmem2

lemma lookup_none_of_any_false (d : List (String × α)) (k : String)
    (h : d.any (fun p => p.1 == k) = false) : List.lookup k d = none := by
  induction d with
  | nil => rfl
  | cons p rest ih =>
    simp only [List.any_cons, Bool.or_eq_false_iff] at h
    have hkp : k ≠ p.1 := fun hEq => by simp [hEq] at h
    rw [show p = (p.1, p.2) from rfl, lookup_cons, if_neg hkp]
    exact ih h.2

lemma lookup_append_of_none (d d2 : List (String × α)) (a : String)
    (h : List.lookup a d = none) : List.lookup a (d ++ d2) = List.lookup a d2 := by
  induction d with
  | nil => rfl
  | cons p rest ih =>
    rw [show p = (p.1, p.2) from rfl] at h ⊢
    rw [lookup_cons] at h
    by_cases hap : a = p.1
    · rw [if_pos hap] at h; cases h
    · rw [if_neg hap] at h
      rw [List.cons_append, lookup_cons, if_neg hap]
      exact ih h

lemma lookup_append_of_some (d d2 : List (String × α)) (a : String) (v : α)
    (h : List.lookup a d = some v) : List.lookup a (d ++ d2) = some v := by
  induction d with
  | nil => cases h
  | cons p rest ih =>
    rw [show p = (p.1, p.2) from rfl] at h ⊢
    rw [lookup_cons] at h
    rw [List.cons_append, lookup_cons]
    by_cases hap : a = p.1
    · rw [if_pos hap] at h; rw [if_pos hap]; exact h
    · rw [if_neg hap] at h; rw [if_neg hap]; exact ih h

lemma lookup_dictInsert (d : List (String × α)) (k a : String) (v : α) :
    List.lookup a (dictInsert d k v) = if a = k then some v else List.lookup a d := by
  unfold dictInsert
  by_cases hmem : d.any (fun p => p.1 == k) = true
  · rw [if_pos hmem]
    by_cases hak : a = k
    · subst hak; rw [if_pos rfl]; exact lookup_overwrite_mem d a v hmem
    · rw [if_neg hak]; exact lookup_overwrite_ne d k a v hak
  · rw [if_neg hmem]
    have hnone : List.lookup k d = none :=
      lookup_none_of_any_false d k (Bool.eq_false_iff.mpr hmem)
    by_cases hak : a = k
    · subst hak
      rw [if_pos rfl, lookup_append_of_none d _ a hnone, lookup_cons, if_pos rfl]
    · rw [if_neg hak]
      cases hda : List.lookup a d with
      | none =>
        rw [lookup_append_of_none d _ a hda, lookup_cons, if_neg hak]
        rfl
      | some w => exact lookup_append_of_some d _ a w hda

lemma mem_keys_dictInsert (d : List (String × α)) (k a : String) (v : α) :
    a ∈ (dictInsert d k v).map Prod.fst ↔ a ∈ d.map Prod.fst ∨ a = k := by
  unfold dictInsert
  by_cases hmem : d.any (fun p => p.1 == k) = true
  · rw [if_pos hmem]
    obtain ⟨p0, hp0, hp0k⟩ := List.any_eq_true.mp hmem
    have hp0k : p0.1 = k := beq_iff_eq.mp hp0k
    rw [List.map_map, List.mem_map]
    constructor
    · rintro ⟨p, hp, hpa⟩
      simp only [Function.comp_apply] at hpa
      by_cases hpk : p.1 = k
      · rw [if_pos hpk] at hpa; right; exact hpa.symm
      · rw [if_neg hpk] at hpa; left; exact List.mem_map.mpr ⟨p, hp, hpa⟩
    · rintro (ha | rfl)
      · obtain ⟨p, hp, hpa⟩ := List.mem_map.mp ha
        refine ⟨p, hp, ?_⟩
        simp only [Function.comp_apply]
        by_cases hpk : p.1 = k
        · rw [if_pos hpk]; rw [← hpa]; exact hpk.symm
        · rw [if_neg hpk]; exact hpa
      · exact ⟨p0, hp0, by simp only [Function.comp_apply]; rw [if_pos hp0k]⟩
  · rw [if_neg hmem, List.map_append, List.mem_append]
    constructor
    · rintro (h | h)
      · exact Or.inl h
      · right; simpa using h
    · rintro (h | rfl)
      · exact Or.inl h
      · right; simp

lemma mem_dictInsert (d : List (String × α)) (k : String) (v : α) (q : String × α)
    (hq : q ∈ dictInsert d k v) : q ∈ d ∨ q = (k, v) := by
  unfold dictInsert at hq
  by_cases hmem : d.any (fun p => p.1 == k) = true
  · rw [if_pos hmem] at hq
    obtain ⟨p, hp, hpq⟩ := List.mem_map.mp hq
    by_cases hpk : p.1 = k
    · rw [if_pos hpk] at hpq; right; exact hpq.symm
    · rw [if_neg hpk] at hpq; left; rw [← hpq]; exact hp
  · rw [if_neg hmem] at hq
    rcases List.mem_append.mp hq with hq | hq
    · exact Or.inl hq
    · right; simpa using hq

lemma foldInsert_step (f : Struct → Option (String × α)) (s : Struct)
    (l : List Struct) (d : List (String × α)) :
    foldInsert f (s :: l) d =
      foldInsert f l (match f s with | some kv => dictInsert d kv.1 kv.2 | none => d) :=
  rfl

lemma entryKeys_cons (f : Struct → Option (String × α)) (s : Struct) (l : List Struct) :
    entryKeys f (s :: l) =
      match f s with
      | some kv => kv.1 :: entryKeys f l
      | none => entryKeys f l := by
  cases hfs : f s <;> simp [entryKeys, List.filterMap_cons, hfs]

lemma lookup_foldInsert_not_contrib (f : Struct → Option (String × α))
    (l : List Struct) (a : String) (h : ∀ s ∈ l, ∀ v, f s ≠ some (a, v)) :
    ∀ d, List.lookup a (foldInsert f l d) = List.lookup a d := by
  induction l with
  | nil => intro d; rfl
  | cons s rest ih =>
    intro d
    rw [foldInsert_step]
    cases hfs : f s with
    | none => exact ih (fun s hs v => h s (List.mem_cons_of_mem _ hs) v) d
    | some kv =>
      rw [ih (fun s hs v => h s (List.mem_cons_of_mem _ hs) v), lookup_dictInsert]
      have hak : a ≠ kv.1 := by
        intro hEq
        exact h s (List.mem_cons_self _ _) kv.2 (by rw [hfs, hEq])
      rw [if_neg hak]

lemma lookup_foldInsert_of_mem (f : Struct → Option (String × α))
    (l : List Struct) (s0 : Struct) (a : String) (v : α)
    (hnd : (entryKeys f l).Nodup) (hs : s0 ∈ l) (hf : f s0 = some (a, v)) :
    ∀ d, List.lookup a (foldInsert f l d) = some v := by
  induction l with
  | nil => cases hs
  | cons s rest ih =>
    intro d
    rcases List.mem_cons.mp hs with hs0 | hs0
    · subst hs0
      rw [foldInsert_step, hf]
      have hnotrest : ∀ s2 ∈ rest, ∀ w, f s2 ≠ some (a, w) := by
        intro s2 hs2 w hEq
        rw [entryKeys_cons, hf] at hnd
        have : a ∈ entryKeys f rest :=
          List.mem_filterMap.mpr ⟨s2, hs2, by rw [hEq]; rfl⟩
        exact (List.nodup_cons.mp hnd).1 this
      rw [lookup_foldInsert_not_contrib f rest a hnotrest, lookup_dictInsert, if_pos rfl]
    · have hndrest : (entryKeys f rest).Nodup := by
        rw [entryKeys_cons] at hnd
        cases hfs : f s with
        | none => rw [hfs] at hnd; exact hnd
        | some kv => rw [hfs] at hnd; exact (List.nodup_cons.mp hnd).2
      rw [foldInsert_step]
      exact ih hndrest hs0 _

lemma mem_keys_foldInsert (f : Struct → Option (String × α)) (l : List Struct)
    (a : String) :
    ∀ d, a ∈ (foldInsert f l d).map Prod.fst ↔ a ∈ d.map Prod.fst ∨ a ∈ entryKeys f l := by
  induction l with
  | nil => intro d; simp [foldInsert, entryKeys]
  | cons s rest ih =>
    intro d
    rw [foldInsert_step, entryKeys_cons]
    cases hfs : f s with
    | none => simpa using ih d
    | some kv =>
      rw [ih (dictInsert d kv.1 kv.2)]
      rw [mem_keys_dictInsert]
      simp only [List.mem_cons]
      tauto

lemma mem_foldInsert (f : Struct → Option (String × α)) (l : List Struct)
    (q : String × α) :
    ∀ d, q ∈ foldInsert f l d → q ∈ d ∨ ∃ s ∈ l, f s = some q := by
  induction l with
  | nil => intro d hq; exact Or.inl hq
  | cons s rest ih =>
    intro d hq
    rw [foldInsert_step] at hq
    cases hfs : f s with
    | none =>
      rw [hfs] at hq
      rcases ih d hq with h | ⟨s2, hs2, hfs2⟩
      · exact Or.inl h
      · exact Or.inr ⟨s2, List.mem_cons_of_mem _ hs2, hfs2⟩
    | some kv =>
      rw [hfs] at hq
      rcases ih (dictInsert d kv.1 kv.2) hq with h | ⟨s2, hs2, hfs2⟩
      · rcases mem_dictInsert d kv.1 kv.2 q h with h2 | h2
        · exact Or.inl h2
        · exact Or.inr ⟨s, List.mem_cons_self _ _, by rw [hfs, h2]⟩
      · exact Or.inr ⟨s2, List.mem_cons_of_mem _ hs2, hfs2⟩

lemma buildStructureScores_eq_foldInsert (l : List Struct) :
    buildStructureScores l = foldInsert buildEntry l [] := by
  unfold buildStructureScores foldInsert
  refine List.foldl_ext _ _ [] (fun d s => ?_)
  cases hid : s.structure_id with
  | none => simp [buildEntry, hid]
  | some sid =>
    by_cases hemp : sid.isEmpty
    · simp [buildEntry, hid, hemp]
    · simp [buildEntry, hid, hemp]

lemma cacheScoresFrom_eq_foldInsert (l : List Struct) :
    cacheScoresFrom l = foldInsert cacheEntry l [] := by
  unfold cacheScoresFrom foldInsert
  refine List.foldl_ext _ _ [] (fun d s => ?_)
  cases hid : s.structure_id with
  | none => simp [cacheEntry, hid]
  | some sid =>
    cases hsc : s.predicted_success_score with
    | none => simp [cacheEntry, hid, hsc]
    | some w =>
      cases w with
      | none => simp [cacheEntry, hid, hsc]
      | some q =>
        by_cases hemp : sid.isEmpty
        · simp [cacheEntry, hid, hsc, hemp]
        · simp [cacheEntry, hid, hsc, hemp]

lemma buildEntry_of_id (s : Struct) (sid : String) (hid : s.structure_id = some sid)
    (hne : sid ≠ "") : buildEntry s = some (sid, scoreGetD s) := by
  have hemp : sid.isEmpty = false := (isEmpty_false_iff sid).mpr hne
  simp [buildEntry, hid, hemp]

lemma buildEntry_inv (s : Struct) (q : String × Option Rat) (h : buildEntry s = some q) :
    s.structure_id = some q.1 ∧ q.1 ≠ "" ∧ q.2 = scoreGetD s := by
  cases hid : s.structure_id with
  | none => simp [buildEntry, hid] at h
  | some sid =>
    by_cases hemp : sid.isEmpty = true
    · simp [buildEntry, hid, hemp] at h
    · have hemp2 : sid.isEmpty = false := Bool.eq_false_iff.mpr hemp
      simp only [buildEntry, hid, hemp2, Bool.false_eq_true, if_false,
        Option.some.injEq] at h
      subst h
      exact ⟨rfl, (isEmpty_false_iff sid).mp hemp2, rfl⟩

lemma cacheEntry_inv (s : Struct) (q : String × Rat) (h : cacheEntry s = some q) :
    s.structure_id = some q.1 ∧ q.1 ≠ "" ∧ s.predicted_success_score = some (some q.2) := by
  cases hid : s.structure_id with
  | none => simp [cacheEntry, hid] at h
  | some sid =>
    cases hsc : s.predicted_success_score with
    | none => simp [cacheEntry, hid, hsc] at h
    | some w =>
      cases w with
      | none => simp [cacheEntry, hid, hsc] at h
      | some r =>
        by_cases hemp : sid.isEmpty = true
        · simp [cacheEntry, hid, hsc, hemp] at h
        · have hemp2 : sid.isEmpty = false := Bool.eq_false_iff.mpr hemp
          simp only [cacheEntry, hid, hsc, hemp2, Bool.false_eq_true, if_false,
            Option.some.injEq] at h
          subst h
          exact ⟨rfl, (isEmpty_false_iff sid).mp hemp2, rfl⟩

lemma cacheEntry_to_buildEntry (s : Struct) (q : String × Rat)
    (h : cacheEntry s = some q) : buildEntry s = some (q.1, some q.2) := by
  obtain ⟨hid, hne, hsc⟩ := cacheEntry_inv s q h
  have := buildEntry_of_id s q.1 hid hne
  rw [this]
  simp [scoreGetD, hsc]

lemma entryKeys_cache_subset (l : List Struct) (a : String)
    (ha : a ∈ entryKeys cacheEntry l) : a ∈ entryKeys buildEntry l := by
  simp only [entryKeys, List.mem_filterMap] at ha ⊢
  obtain ⟨s, hs, hmap⟩ := ha
  obtain ⟨q, hq, hqa⟩ := Option.map_eq_some'.mp hmap
  refine ⟨s, hs, ?_⟩
  rw [cacheEntry_to_buildEntry s q hq]
  simpa using hqa

/-- C5: the payload of the generator update contains the configured
exploration rate, the global preference vector of the score response, the
fetched insights, and a structure_scores dict mapping each truthy
structure id to its predicted score with the 0.5 default when the score
key is absent, omitting structures with no (or a falsy) id; in particular
structures s1 at 0.8 and s2 at 0.6 produce exactly those entries. -/
theorem update_generator_payload_spec (cfg : Config) (sc : ScoreResponse)
    (ins : InsightsResponse) (hnd : (entryKeys buildEntry sc.structures).Nodup) :
    (updateGeneratorPayload cfg.exploration_rate sc ins).exploration_rate =
      cfg.exploration_rate ∧
    (updateGeneratorPayload cfg.exploration_rate sc ins).global_preference_vector =
      sc.global_preference_vector ∧
    (updateGeneratorPayload cfg.exploration_rate sc ins).structure_prompt_insights =
      ins.insights ∧
    (∀ s ∈ sc.structures, ∀ sid, s.structure_id = some sid → sid ≠ "" →
      List.lookup sid (updateGeneratorPayload cfg.exploration_rate sc ins).structure_scores =
        some (scoreGetD s)) ∧
    (∀ s ∈ sc.structures, ∀ sid, s.structure_id = some sid → sid ≠ "" →
      s.predicted_success_score = none →
      List.lookup sid (updateGeneratorPayload cfg.exploration_rate sc ins).structure_scores =
        some (some (1/2))) ∧
    (∀ s ∈ sc.structures, ∀ sid q, s.structure_id = some sid → sid ≠ "" →
      s.predicted_success_score = some (some q) →
      List.lookup sid (updateGeneratorPayload cfg.exploration_rate sc ins).structure_scores =
        some (some q)) ∧
    (∀ q ∈ (updateGeneratorPayload cfg.exploration_rate sc ins).structure_scores,
      ∃ s ∈ sc.structures, s.structure_id = some q.1 ∧ q.1 ≠ "") ∧
    buildStructureScores
      [{ structure_id := some "s1", predicted_success_score := some (some (4/5)) },
       { structure_id := some "s2", predicted_success_score := some (some (3/5)) }] =
      [("s1", some (4/5)), ("s2", some (3/5))] := by
  have hss : (updateGeneratorPayload cfg.exploration_rate sc ins).structure_scores =
      foldInsert buildEntry sc.structures [] := by
    simp [updateGeneratorPayload, buildStructureScores_eq_foldInsert]
  have hmain : ∀ s ∈ sc.structures, ∀ sid, s.structure_id = some sid → sid ≠ "" →
      List.lookup sid (updateGeneratorPayload cfg.exploration_rate sc ins).structure_scores =
        some (scoreGetD s) := by
    intro s hs sid hid hne
    rw [hss]
    exact lookup_foldInsert_of_mem buildEntry sc.structures s sid (scoreGetD s) hnd hs
      (buildEntry_of_id s sid hid hne) []
  refine ⟨rfl, rfl, rfl, hmain, ?_, ?_, ?_, rfl⟩
  · intro s hs sid hid hne habsent
    have := hmain s hs sid hid hne
    rwa [show scoreGetD s = some (1/2) from by simp [scoreGetD, habsent]] at this
  · intro s hs sid q hid hne hq
    have := hmain s hs sid hid hne
    rwa [show scoreGetD s = some q from by simp [scoreGetD, hq]] at this
  · intro q hq
    rw [hss] at hq
    rcases mem_foldInsert buildEntry sc.structures q [] hq with h | ⟨s, hs, hbe⟩
    · simp at h
    · obtain ⟨hid, hne, _⟩ := buildEntry_inv s q hbe
      exact ⟨s, hs, hid, hne⟩

/-- Witness for C5 at the s1 and s2 scenario of the spec. -/
theorem update_generator_payload_witness :
    List.lookup "s1"
      (updateGeneratorPayload cfgDefault.exploration_rate
        { structures :=
            [{ structure_id := some "s1", predicted_success_score := some (some (4/5)) },
             { structure_id := some "s2", predicted_success_score := some (some (3/5)) }],
          global_preference_vector := [], error := none }
        { status := none, insights := [] }).structure_scores = some (some (4/5)) ∧
    (updateGeneratorPayload cfgDefault.exploration_rate
        { structures :=
            [{ structure_id := some "s1", predicted_success_score := some (some (4/5)) },
             { structure_id := some "s2", predicted_success_score := some (some (3/5)) }],
          global_preference_vector := [], error := none }
        { status := none, insights := [] }).exploration_rate = cfgDefault.exploration_rate :=
  ⟨(update_generator_payload_spec cfgDefault
      { structures :=
          [{ structure_id := some "s1", predicted_success_score := some (some (4/5)) },
           { structure_id := some "s2", predicted_success_score := some (some (3/5)) }],
        global_preference_vector := [], error := none }
      { status := none, insights := [] } (by decide)).2.2.2.2.2.1
      { structure_id := some "s1", predicted_success_score := some (some (4/5)) }
      (List.Mem.head _) "s1" (4/5) rfl (by decide) rfl,
   (update_generator_payload_spec cfgDefault
      { structures :=
          [{ structure_id := some "s1", predicted_success_score := some (some (4/5)) },
           { structure_id := some "s2", predicted_success_score := some (some (3/5)) }],
        global_preference_vector := [], error := none }
      { status := none, insights := [] } (by decide)).1⟩

/-- C9: the cached score dict keeps only structures with a truthy id and a
non-None score: its key set is contained in the key set of the generator
structure_scores payload, every cached value is a score present in the
response, cache_scores installs exactly that dict, and a structure with an
id but no score gets the 0.5 default in the payload while being absent
from the cache. -/
theorem cache_scores_subset_of_payload (l : List Struct) :
    (∀ a, a ∈ (cacheScoresFrom l).map Prod.fst →
      a ∈ (buildStructureScores l).map Prod.fst) ∧
    (∀ q ∈ cacheScoresFrom l, ∃ s ∈ l, s.structure_id = some q.1 ∧ q.1 ≠ "" ∧
      s.predicted_success_score = some (some q.2)) ∧
    (∀ st : OrchState, ∀ now : Rat,
      (st.cache_scores (cacheScoresFrom l) now).cached_structure_scores =
        cacheScoresFrom l) ∧
    (cacheScoresFrom [{ structure_id := some "s3", predicted_success_score := none }] = [] ∧
     buildStructureScores [{ structure_id := some "s3", predicted_success_score := none }] =
       [("s3", some (1/2))]) := by
  refine ⟨?_, ?_, fun st now => rfl, rfl, rfl⟩
  · intro a ha
    rw [cacheScoresFrom_eq_foldInsert] at ha
    rcases (mem_keys_foldInsert cacheEntry l a []).mp ha with h | h
    · simp at h
    · rw [buildStructureScores_eq_foldInsert]
      exact (mem_keys_foldInsert buildEntry l a []).mpr
        (Or.inr (entryKeys_cache_subset l a h))
  · intro q hq
    rw [cacheScoresFrom_eq_foldInsert] at hq
    rcases mem_foldInsert cacheEntry l q [] hq with h | ⟨s, hs, hce⟩
    · simp at h
    · exact ⟨s, hs, cacheEntry_inv s q hce⟩

/-- Witness for C9 at a concrete one-structure response. -/
theorem cache_scores_subset_witness :
    "sA" ∈ (buildStructureScores
      [{ structure_id := some "sA", predicted_success_score := some (some (7/10)) }]).map
        Prod.fst :=
  (cache_scores_subset_of_payload
    [{ structure_id := some "sA", predicted_success_score := some (some (7/10)) }]).1
    "sA" (by decide)

lemma runLearningCycle_clears_flag (cfg : Config) (env : CycleEnv) (st : OrchState) :
    (runLearningCycle cfg env st).2.is_retraining = false := by
  rcases htr : env.train with e | tr
  · simp [runLearningCycle, htr, OrchState.set_retraining, OrchState.set_error]
  · rcases hsc : env.score with e | sc
    · simp [runLearningCycle, htr, hsc, OrchState.set_retraining, OrchState.set_error]
    · rcases hgu : env.generator_update
        (updateGeneratorPayload cfg.exploration_rate sc (getStructureInsights env.insights))
        with e | gu
      · simp [runLearningCycle, htr, hsc, hgu, OrchState.set_retraining, OrchState.set_error]
      · simp [runLearningCycle, htr, hsc, hgu, OrchState.set_retraining,
          OrchState.set_error, OrchState.cache_scores, OrchState.reset_likes]

lemma runLearningCycleV1_clears_flag (cfg : Config) (env : CycleEnv) (st : OrchState) :
    (runLearningCycleV1 cfg env st).2.is_retraining = false := by
  rcases htr : env.train with e | tr
  · simp [runLearningCycleV1, htr, OrchState.set_retraining, OrchState.set_error]
  · by_cases hts : trainStatusIsError tr = true
    · simp [runLearningCycleV1, htr, hts, OrchState.set_retraining, OrchState.set_error]
    · rcases hsc : env.score with e | sc
      · simp [runLearningCycleV1, htr, hts, hsc, OrchState.set_retraining,
          OrchState.set_error]
      · by_cases hse : sc.error.isSome = true
        · simp [runLearningCycleV1, htr, hts, hsc, hse, OrchState.set_retraining,
            OrchState.set_error]
        · rcases hgu : env.generator_update
            (updateGeneratorPayload cfg.exploration_rate sc (getStructureInsights env.insights))
            with e | gu
          · simp [runLearningCycleV1, htr, hts, hsc, hse, hgu, OrchState.set_retraining,
              OrchState.set_error]
          · simp [runLearningCycleV1, htr, hts, hsc, hse, hgu, OrchState.set_retraining,
              OrchState.set_error, OrchState.reset_likes]

lemma runLearningCycle_ok_resets_likes (cfg : Config) (env : CycleEnv) (st : OrchState)
    (hok : abortingOk cfg env) :
    (runLearningCycle cfg env st).2.likes_since_last_retrain = 0 := by
  obtain ⟨tr, sc, gu, htr, hsc, hgu⟩ := hok
  simp [runLearningCycle, htr, hsc, hgu, OrchState.set_retraining, OrchState.set_error,
    OrchState.cache_scores, OrchState.reset_likes]

/-- C2: both revisions of run_learning_cycle always return a structured
result with the two terminal states mutually exclusive: success true with
no error entry exactly when every aborting step succeeded, success false
with a non-empty error message otherwise (given that environment failure
messages are non-empty), and is_retraining is false after the return. -/
theorem learning_cycle_terminal_states (cfg : Config) (st stV1 : OrchState)
    (env envV1 : CycleEnv) (h : envErrorsNonempty env) (hV1 : envErrorsNonempty envV1) :
    (((runLearningCycle cfg env st).1.success = true ∧
        (runLearningCycle cfg env st).1.error = none) ↔ abortingOk cfg env) ∧
    resultWellFormed (runLearningCycle cfg env st).1 ∧
    (runLearningCycle cfg env st).2.is_retraining = false ∧
    (((runLearningCycleV1 cfg envV1 stV1).1.success = true ∧
        (runLearningCycleV1 cfg envV1 stV1).1.error = none) ↔ abortingOkV1 cfg envV1) ∧
    resultWellFormed (runLearningCycleV1 cfg envV1 stV1).1 ∧
    (runLearningCycleV1 cfg envV1 stV1).2.is_retraining = false := by
  obtain ⟨ht, hs, hg⟩ := h
  obtain ⟨htV, hsV, hgV⟩ := hV1
  have main2 : (((runLearningCycle cfg env st).1.success = true ∧
      (runLearningCycle cfg env st).1.error = none) ↔ abortingOk cfg env) ∧
      resultWellFormed (runLearningCycle cfg env st).1 := by
    rcases htr : env.train with e | tr
    · constructor
      · simp [runLearningCycle, htr, errCycleResults, abortingOk]
      · right
        simp [runLearningCycle, htr, errCycleResults, resultWellFormed]
        exact ht e htr
    · rcases hsc : env.score with e | sc
      · constructor
        · simp [runLearningCycle, htr, hsc, errCycleResults, abortingOk]
        · right
          simp [runLearningCycle, htr, hsc, errCycleResults, resultWellFormed]
          exact hs e hsc
      · rcases hgu : env.generator_update
          (updateGeneratorPayload cfg.exploration_rate sc (getStructureInsights env.insights))
          with e | gu
        · constructor
          · simp [runLearningCycle, htr, hsc, hgu, errCycleResults, abortingOk]
          · right
            simp [runLearningCycle, htr, hsc, hgu, errCycleResults, resultWellFormed]
            exact hg _ e hgu
        · constructor
          · simp only [runLearningCycle, htr, hsc, hgu]
            simp
            exact ⟨tr, sc, gu, htr, hsc, hgu⟩
          · left
            simp [runLearningCycle, htr, hsc, hgu, resultWellFormed]
  have mainV1 : (((runLearningCycleV1 cfg envV1 stV1).1.success = true ∧
      (runLearningCycleV1 cfg envV1 stV1).1.error = none) ↔ abortingOkV1 cfg envV1) ∧
      resultWellFormed (runLearningCycleV1 cfg envV1 stV1).1 := by
    rcases htr : envV1.train with e | tr
    · constructor
      · simp [runLearningCycleV1, htr, errCycleResults, abortingOkV1]
      · right
        simp [runLearningCycleV1, htr, errCycleResults, resultWellFormed]
        exact htV e htr
    · by_cases hts : trainStatusIsError tr = true
      · constructor
        · simp [runLearningCycleV1, htr, hts, errCycleResults, abortingOkV1]
        · right
          simp [runLearningCycleV1, htr, hts, errCycleResults, resultWellFormed]
          exact append_left_ne_empty _ _ (by decide)
      · rcases hsc : envV1.score with e | sc
        · constructor
          · simp [runLearningCycleV1, htr, hts, hsc, errCycleResults, abortingOkV1]
          · right
            simp [runLearningCycleV1, htr, hts, hsc, errCycleResults, resultWellFormed]
            exact hsV e hsc
        · by_cases hse : sc.error.isSome = true
          · have hnotOk : ¬ abortingOkV1 cfg envV1 := by
              rintro ⟨tr2, sc2, gu2, htr2, hts2, hsc2, hse2, hgu2⟩
              rw [htr] at htr2
              rw [hsc] at hsc2
              injection htr2 with h1
              injection hsc2 with h2
              subst h1
              subst h2
              rw [hse2] at hse
              simp at hse
            constructor
            · simp [runLearningCycleV1, htr, hts, hsc, hse, errCycleResults, hnotOk]
            · right
              simp [runLearningCycleV1, htr, hts, hsc, hse, errCycleResults,
                resultWellFormed]
              exact append_left_ne_empty _ _ (by decide)
          · rcases hgu : envV1.generator_update
              (updateGeneratorPayload cfg.exploration_rate sc
                (getStructureInsights envV1.insights))
              with e | gu
            · constructor
              · simp [runLearningCycleV1, htr, hts, hsc, hse, hgu, errCycleResults,
                  abortingOkV1]
              · right
                simp [runLearningCycleV1, htr, hts, hsc, hse, hgu, errCycleResults,
                  resultWellFormed]
                exact hgV _ e hgu
            · constructor
              · simp only [runLearningCycleV1, htr, hts, hsc, hse, hgu]
                simp
                exact ⟨tr, sc, gu, htr, Bool.eq_false_iff.mpr hts,
                  hsc, Option.not_isSome_iff_eq_none.mp hse, hgu⟩
              · left
                simp [runLearningCycleV1, htr, hts, hsc, hse, hgu, resultWellFormed]
  exact ⟨main2.1, main2.2, runLearningCycle_clears_flag cfg env st,
    mainV1.1, mainV1.2, runLearningCycleV1_clears_flag cfg envV1 stV1⟩

/-- Witness for C2: with an all-successful environment both revisions
finish with success true and a cleared busy flag. -/
theorem learning_cycle_terminal_states_witness :
    (runLearningCycle cfgDefault envAllOk OrchState.init).1.success = true ∧
    (runLearningCycle cfgDefault envAllOk OrchState.init).1.error = none ∧
    (runLearningCycle cfgDefault envAllOk OrchState.init).2.is_retraining = false ∧
    (runLearningCycleV1 cfgDefault envAllOk OrchState.init).1.success = true := by
  have hne : envErrorsNonempty envAllOk := by
    refine ⟨fun e hc => ?_, fun e hc => ?_, fun p e hc => ?_⟩ <;>
      simp [envAllOk] at hc
  have h := learning_cycle_terminal_states cfgDefault OrchState.init OrchState.init
    envAllOk envAllOk hne hne
  have hok : abortingOk cfgDefault envAllOk :=
    ⟨{ status := some (.str "ok"), error := none },
     { structures := [], global_preference_vector := [], error := none },
     .null, rfl, rfl, rfl⟩
  have hokV1 : abortingOkV1 cfgDefault envAllOk :=
    ⟨{ status := some (.str "ok"), error := none },
     { structures := [], global_preference_vector := [], error := none },
     .null, rfl, rfl, rfl, rfl, rfl⟩
  exact ⟨(h.1.mpr hok).1, (h.1.mpr hok).2, h.2.2.1, (h.2.2.2.1.mpr hokV1).1⟩

lemma likeEvents_aux (cfg : Config) (hT : 1 ≤ cfg.like_threshold) :
    ∀ (events : List (Rat × CycleEnv)) (st : OrchState),
      st.is_retraining = false →
      st.likes_since_last_retrain < cfg.like_threshold →
      (∀ ev ∈ events, abortingOk cfg ev.2) →
      (runLikeEventsSerialized cfg events st).1 =
        (st.likes_since_last_retrain + events.length) / cfg.like_threshold := by
  intro events
  induction events with
  | nil =>
    intro st hret hlt hok
    simp [runLikeEventsSerialized]
    exact (Nat.div_eq_of_lt hlt).symm
  | cons ev rest ih =>
    obtain ⟨now, env⟩ := ev
    intro st hret hlt hok
    have hokrest : ∀ ev2 ∈ rest, abortingOk cfg ev2.2 :=
      fun ev2 hev2 => hok ev2 (List.mem_cons_of_mem _ hev2)
    by_cases hth : cfg.like_threshold ≤ st.likes_since_last_retrain + 1
    · have hcycle0 := runLearningCycle_ok_resets_likes cfg env
        ((st.increment_likes now).2) (hok (now, env) (List.mem_cons_self _ _))
      have hcycleflag := runLearningCycle_clears_flag cfg env ((st.increment_likes now).2)
      have hrec := ih ((runLearningCycle cfg env ((st.increment_likes now).2)).2)
        hcycleflag (by omega) hokrest
      rw [hcycle0] at hrec
      simp only [Nat.zero_add] at hrec
      simp only [OrchState.increment_likes, hret] at hrec
      simp only [runLikeEventsSerialized, handle_like_event, hret, Bool.false_eq_true,
        if_false, OrchState.increment_likes, hth, ite_true, ite_false, List.length_cons]
      rw [hrec]
      have harith : st.likes_since_last_retrain + (rest.length + 1) =
          rest.length + cfg.like_threshold := by omega
      rw [harith, Nat.add_div_right _ (by omega : 0 < cfg.like_threshold)]
      omega
    · have hrec := ih ((st.increment_likes now).2)
        (by simp [OrchState.increment_likes, hret])
        (by simp only [OrchState.increment_likes]; omega) hokrest
      simp only [OrchState.increment_likes, hret] at hrec
      simp only [runLikeEventsSerialized, handle_like_event, hret, Bool.false_eq_true,
        if_false, OrchState.increment_likes, hth, ite_true, ite_false, List.length_cons]
      rw [hrec]
      have harith : st.likes_since_last_retrain + 1 + rest.length =
          st.likes_since_last_retrain + (rest.length + 1) := by omega
      rw [harith, Nat.zero_add]

/-- C1 counterexample: one strictly serialized like event at threshold 2
produces zero learning-cycle triggers, not ceil(1/2) = 1. -/
theorem like_trigger_count_counterexample :
    (runLikeEventsSerialized { like_threshold := 2, exploration_rate := 1/5 }
        [(0, envAllOk)] OrchState.init).1 ≠ (1 + 2 - 1) / 2 := by
  decide

/-- C1 amended: for threshold T at least 1 and strictly serialized like
events each of whose triggered learning cycles succeeds before the next
event, exactly floor(N/T) learning-cycle triggers occur over N events from
a fresh state. -/
theorem like_trigger_count (cfg : Config) (events : List (Rat × CycleEnv))
    (hT : 1 ≤ cfg.like_threshold) (hok : ∀ ev ∈ events, abortingOk cfg ev.2) :
    (runLikeEventsSerialized cfg events OrchState.init).1 =
      events.length / cfg.like_threshold := by
  have h := likeEvents_aux cfg hT events OrchState.init rfl
    (by simpa [OrchState.init] using hT) hok
  simpa [OrchState.init] using h

/-- Witness for C1: three serialized events at threshold 2 with successful
cycles yield exactly one trigger. -/
theorem like_trigger_count_witness :
    (runLikeEventsSerialized { like_threshold := 2, exploration_rate := 1/5 }
        [(0, envAllOk), (1, envAllOk), (2, envAllOk)] OrchState.init).1 = 3 / 2 :=
  like_trigger_count { like_threshold := 2, exploration_rate := 1/5 }
    [(0, envAllOk), (1, envAllOk), (2, envAllOk)] (by decide)
    (by
      intro ev hev
      have hok : abortingOk { like_threshold := 2, exploration_rate := 1/5 } envAllOk :=
        ⟨{ status := some (.str "ok"), error := none },
         { structures := [], global_preference_vector := [], error := none },
         .null, rfl, rfl, rfl⟩
      simp only [List.mem_cons, List.not_mem_nil, or_false] at hev
      rcases hev with rfl | rfl | rfl <;> exact hok)

lemma callGeneratorAux_nonpos (env : Nat → Except String (List JVal)) (rem : Int)
    (bn : Nat) (acc : List JVal) (tr : List GenEvent) (h : rem ≤ 0) :
    callGeneratorAux env rem bn acc tr = (.ok acc, tr) := by
  rw [callGeneratorAux]
  simp [h]

lemma batchSizes_nonpos (rem : Int) (h : rem ≤ 0) : batchSizes rem = [] := by
  rw [batchSizes]
  simp [h]

lemma batchSizes_pos (rem : Int) (h : 0 < rem) :
    batchSizes rem = (min rem 10).toNat :: batchSizes (rem - min rem 10) := by
  rw [batchSizes, if_neg (by omega)]

lemma batchSizes_natCast (N : Nat) :
    batchSizes (N : Int) =
      List.replicate (N / 10) 10 ++ (if N % 10 = 0 then [] else [N % 10]) := by
  induction N using Nat.strong_induction_on with
  | _ N ih =>
    by_cases h0 : N = 0
    · subst h0
      rw [batchSizes_nonpos _ (by norm_num)]
      simp
    · have hN : 0 < N := Nat.pos_of_ne_zero h0
      rw [batchSizes_pos _ (by exact_mod_cast hN)]
      by_cases h10 : N ≤ 10
      · have hmin : min (N : Int) 10 = (N : Int) := by omega
        rw [hmin, show (N : Int) - (N : Int) = 0 from by omega,
          batchSizes_nonpos 0 (by norm_num), Int.toNat_ofNat]
        by_cases hN10 : N = 10
        · subst hN10; norm_num
        · have hd : N / 10 = 0 := by omega
          have hm : N % 10 = N := by omega
          simp [hd, hm, h0]
      · have hmin : min (N : Int) 10 = 10 := by omega
        rw [hmin, show (N : Int) - 10 = ((N - 10 : Nat) : Int) from by omega,
          ih (N - 10) (by omega)]
        rw [show ((10 : Int)).toNat = 10 from rfl]
        rw [show (N - 10) / 10 = N / 10 - 1 from by omega,
          show (N - 10) % 10 = N % 10 from by omega]
        rw [show N / 10 = (N / 10 - 1) + 1 from by omega]
        simp [List.replicate_succ]

lemma batchSizes_length (N : Nat) : (batchSizes (N : Int)).length = (N + 9) / 10 := by
  rw [batchSizes_natCast]
  by_cases h : N % 10 = 0 <;> simp [h] <;> omega

lemma batchSizes_sum (N : Nat) : (batchSizes (N : Int)).sum = N := by
  rw [batchSizes_natCast]
  by_cases h : N % 10 = 0 <;>
    simp [h, List.sum_replicate, smul_eq_mul] <;> omega

lemma callGeneratorAux_ok (resp : Nat → List JVal) :
    ∀ (n : Nat) (rem : Int), rem.toNat ≤ n →
      ∀ (bn : Nat) (acc : List JVal) (tr : List GenEvent),
      callGeneratorAux (okEnvOf resp) rem bn acc tr =
        (.ok (acc ++ ((List.range' (bn + 1) (batchSizes rem).length).map resp).flatten),
         tr ++ seqTrace (batchSizes rem)) := by
  intro n
  induction n with
  | zero =>
    intro rem h0 bn acc tr
    have h : rem ≤ 0 := by omega
    rw [callGeneratorAux_nonpos _ _ _ _ _ h, batchSizes_nonpos rem h]
    simp [seqTrace]
  | succ n ihn =>
    intro rem h0 bn acc tr
    by_cases h : rem ≤ 0
    · rw [callGeneratorAux_nonpos _ _ _ _ _ h, batchSizes_nonpos rem h]
      simp [seqTrace]
    · rw [callGeneratorAux, if_neg h]
      simp only [okEnvOf]
      by_cases h2 : rem - min rem 10 > 0
      · rw [if_pos h2, ihn (rem - min rem 10) (by omega)]
        rw [batchSizes_pos rem (by omega), batchSizes_pos (rem - min rem 10) h2]
        simp [seqTrace, List.range'_succ, List.append_assoc]
      · rw [if_neg h2]
        rw [batchSizes_pos rem (by omega), batchSizes_nonpos (rem - min rem 10) (by omega)]
        simp [seqTrace, List.range'_succ]

lemma call_generator_ok (resp : Nat → List JVal) (N : Nat) :
    call_generator (okEnvOf resp) (N : Int) =
      (.ok ((List.range' 1 ((N + 9) / 10)).map resp).flatten,
       seqTrace (batchSizes (N : Int))) := by
  have h := callGeneratorAux_ok resp (N : Int).toNat (N : Int) le_rfl 0 [] []
  rw [batchSizes_length] at h
  simpa [call_generator] using h

lemma callGeneratorAux_err (env : Nat → Except String (List JVal)) (j : Nat) (e : String)
    (hj : env j = .error e) :
    ∀ (n : Nat) (rem : Int), rem.toNat ≤ n →
      ∀ (bn : Nat) (acc : List JVal) (tr : List GenEvent),
      (∀ i, bn < i → i < j → ∃ ps, env i = .ok ps) →
      bn < j → j ≤ bn + (batchSizes rem).length →
      (callGeneratorAux env rem bn acc tr).1 = .error e := by
  intro n
  induction n with
  | zero =>
    intro rem h0 bn acc tr hok hbj hjle
    rw [batchSizes_nonpos rem (by omega)] at hjle
    simp at hjle
    omega
  | succ n ihn =>
    intro rem h0 bn acc tr hok hbj hjle
    by_cases h : rem ≤ 0
    · rw [batchSizes_nonpos rem h] at hjle
      simp at hjle
      omega
    · rw [callGeneratorAux, if_neg h]
      by_cases hbj1 : bn + 1 = j
      · rw [hbj1, hj]
      · obtain ⟨ps, hps⟩ := hok (bn + 1) (by omega) (by omega)
        rw [batchSizes_pos rem (by omega)] at hjle
        simp only [List.length_cons] at hjle
        by_cases h2 : rem - min rem 10 > 0
        · simp only [hps, h2, ite_true]
          exact ihn (rem - min rem 10) (by omega) (bn + 1) _ _
            (fun i hi1 hi2 => hok i (by omega) hi2) (by omega)
            (by
              rw [batchSizes_pos (rem - min rem 10) h2] at hjle ⊢
              simp only [List.length_cons] at hjle ⊢
              omega)
        · exfalso
          rw [batchSizes_nonpos (rem - min rem 10) (by omega)] at hjle
          simp only [List.length_nil] at hjle
          omega

lemma flatten_length_eq (resp : Nat → List JVal) (N : Nat)
    (hlen : ∀ i, i < (batchSizes (N : Int)).length →
      (resp (i + 1)).length = (batchSizes (N : Int)).getD i 0) :
    (((List.range' 1 ((N + 9) / 10)).map resp).flatten).length = N := by
  rw [List.length_flatten, List.map_map]
  have hmap : (List.range' 1 ((N + 9) / 10)).map (List.length ∘ resp) =
      batchSizes (N : Int) := by
    apply List.ext_getElem
    · simp [batchSizes_length]
    · intro i h1 h2
      rw [List.getElem_map, List.getElem_range']
      have hib : i < (batchSizes (N : Int)).length := h2
      have := hlen i hib
      rw [List.getD_eq_getElem _ _ hib] at this
      simpa [Nat.add_comm] using this
  rw [hmap, batchSizes_sum]

/-- C6: for N above the sub-batch size, an all-successful batched generator
call issues exactly ceil(N/10) sub-requests of sizes 10, 10, ..., then the
remainder, with a 2-second sleep between consecutive sub-requests and none
after the last, and returns the concatenation of the sub-responses in
request order (N prompts when each sub-request returns the requested
count); the first failing sub-request aborts the whole call with no
partial result. -/
theorem call_generator_batching (N : Nat) (hN : 10 < N) (resp : Nat → List JVal)
    (env : Nat → Except String (List JVal)) (j : Nat) (e : String)
    (hjfail : env j = .error e) (hok : ∀ i, 0 < i → i < j → ∃ ps, env i = .ok ps)
    (hj1 : 1 ≤ j) (hjle : j ≤ (N + 9) / 10)
    (hlen : ∀ i, i < (batchSizes (N : Int)).length →
      (resp (i + 1)).length = (batchSizes (N : Int)).getD i 0) :
    call_generator (okEnvOf resp) (N : Int) =
      (.ok ((List.range' 1 ((N + 9) / 10)).map resp).flatten,
       seqTrace (batchSizes (N : Int))) ∧
    batchSizes (N : Int) =
      List.replicate (N / 10) 10 ++ (if N % 10 = 0 then [] else [N % 10]) ∧
    (batchSizes (N : Int)).length = (N + 9) / 10 ∧
    (((List.range' 1 ((N + 9) / 10)).map resp).flatten).length = N ∧
    (call_generator env (N : Int)).1 = .error e := by
  refine ⟨call_generator_ok resp N, batchSizes_natCast N, batchSizes_length N,
    flatten_length_eq resp N hlen, ?_⟩
  unfold call_generator
  exact callGeneratorAux_err env j e hjfail (N : Int).toNat (N : Int) le_rfl 0 [] []
    (fun i hi1 hi2 => hok i hi1 hi2) (by omega)
    (by rw [batchSizes_length]; omega)

/-- Witness for C6 at the 25-prompt scenario: three sub-requests of sizes
10, 10 and 5 with sleeps between them, and an abort when the second
sub-request fails. -/
theorem call_generator_batching_witness :
    (call_generator
        (okEnvOf fun i => if i = 3 then List.replicate 5 .null else List.replicate 10 .null)
        (((25 : Nat) : Int))).2 =
      [.request 10, .sleep 2, .request 10, .sleep 2, .request 5] ∧
    (call_generator
        (fun i => if i = 2 then .error "boom"
          else .ok (List.replicate 10 .null)) (((25 : Nat) : Int))).1 = .error "boom" := by
  have hb : batchSizes (((25 : Nat) : Int)) = [10, 10, 5] := by
    show batchSizes (25 : Int) = [10, 10, 5]
    simp [batchSizes]
  have h := call_generator_batching 25 (by norm_num)
    (fun i => if i = 3 then List.replicate 5 .null else List.replicate 10 .null)
    (fun i => if i = 2 then .error "boom" else .ok (List.replicate 10 .null))
    2 "boom" (by norm_num)
    (by
      intro i h1 h2
      have : i = 1 := by omega
      subst this
      exact ⟨List.replicate 10 .null, by norm_num⟩)
    (by norm_num) (by norm_num)
    (by
      intro i hi
      rw [hb] at hi ⊢
      simp only [List.length_cons, List.length_nil] at hi
      interval_cases i <;> simp [List.getD])
  refine ⟨?_, h.2.2.2.2⟩
  rw [h.1, hb]
  simp [seqTrace]

/-- C10: a non-positive num_prompts issues zero sub-requests and returns
the empty prompts list with no sleeps; for every integer num_prompts the
sub-request loop runs exactly ceil(max(num_prompts, 0)/10) iterations
(hence terminates), because while remaining is positive each iteration
removes min(remaining, 10), which is at least 1. -/
theorem call_generator_nonpos_empty (env : Nat → Except String (List JVal))
    (N M : Int) (hN : N ≤ 0) :
    call_generator env N = (.ok [], []) ∧
    (batchSizes M).length = ((max M 0).toNat + 9) / 10 ∧
    (∀ rem : Int, 0 < rem → 1 ≤ min rem 10 ∧ (rem - min rem 10).toNat < rem.toNat) := by
  refine ⟨?_, ?_, fun rem h => ⟨by omega, by omega⟩⟩
  · unfold call_generator
    exact callGeneratorAux_nonpos env N 0 [] [] hN
  · by_cases hM : M ≤ 0
    · rw [batchSizes_nonpos M hM, show (max M 0).toNat = 0 from by omega]
      norm_num
    · rw [show M = ((M.toNat : Nat) : Int) from by omega, batchSizes_length M.toNat]
      congr 1
      omega

/-- Witness for C10: num_prompts negative three yields no sub-requests and
an empty prompts list. -/
theorem call_generator_nonpos_empty_witness :
    call_generator (fun _ => .error "unreachable") (-3 : Int) = (.ok [], []) :=
  (call_generator_nonpos_empty (fun _ => .error "unreachable") (-3) 7 (by norm_num)).1

end Anatomie
